import Mathlib

/-
Verification of the daylevel repository (src/intraday.py, src/server.py,
src/refer.py) against its natural-language specification.

The Python sources are shallowly embedded as executable Lean functions.
Remote services (the Tushare HTTP API and the Supabase database) are
modelled as oracles: a tool receives the response(s) the remote side
would produce and we count how many remote requests it issues.  The
process state touched by the token-management code (the dotenv file and
the process environment variables) is modelled explicitly by the Env
structure below.

Conventions used throughout:
  * Python truthiness of an optional string argument (None and the
    empty string are falsy) is pyTruthyO.
  * A Python f-string interpolation of a possibly-None variable is
    pyShow (str(None) = "None").
  * str.join is joinSep.
  * Exceptions inside a try block are Except.error carrying str(e); the
    surrounding except-handler turns them into the failure message, so
    every tool is total and returns a String, as in the source.
-/

deriving instance DecidableEq for Except

/-! ## Generic Python-style string helpers -/

/-- Python truthiness of an optional string: None and "" are falsy. -/
def pyTruthyO (o : Option String) : Bool :=
  match o with
  | none => false
  | some s => !(s == "")

/-- Interpolation of a possibly-None string into an f-string:
str(None) is "None". -/
def pyShow (o : Option String) : String :=
  match o with
  | none => "None"
  | some s => s

/-- Python str.join: sep.join(list). -/
def joinSep (sep : String) : List String → String
  | [] => ""
  | [x] => x
  | x :: y :: rest => x ++ sep ++ joinSep sep (y :: rest)

/-- Left-pad a string with zeros to the given width (used for strftime
zero padding). -/
def padZeros (s : String) (w : Nat) : String :=
  String.mk (List.replicate (w - s.length) '0') ++ s

/-- The last n characters of a string (Python s[-n:] for 0 < n ≤ len). -/
def takeRight (s : String) (n : Nat) : String :=
  String.mk (s.data.drop (s.data.length - n))

/-- ASCII lowercasing; models str.lower() for the ASCII inputs the
tools receive (Chinese characters have no case). -/
def toLowerStr (s : String) : String :=
  String.mk (s.data.map Char.toLower)

/-- The ASCII whitespace characters stripped by Python str.strip(). -/
def isPySpace (c : Char) : Bool :=
  c == ' ' || c == '\t' || c == '\n' || c == '\r' || c == '\x0b' || c == '\x0c'

/-- Python str.strip(). -/
def pyStrip (s : String) : String :=
  String.mk (((s.data.dropWhile isPySpace).reverse.dropWhile isPySpace).reverse)

/-- Does the second list start with the first one? -/
def startsWithL : List Char → List Char → Bool
  | [], _ => true
  | _ :: _, [] => false
  | a :: as, b :: bs => a == b && startsWithL as bs

/-- Substring test on character lists. -/
def subOf (n : List Char) : List Char → Bool
  | [] => n.isEmpty
  | h :: t => startsWithL n (h :: t) || subOf n t

/-- Case-insensitive substring containment; models
Series.str.contains(keyword, case=False, na=False) for keywords
without regex metacharacters (pandas treats the keyword as a regex,
which coincides with substring search for literal keywords). -/
def containsCI (needle hay : String) : Bool :=
  subOf (toLowerStr needle).data (toLowerStr hay).data

/-- Numeric value of a list of decimal digit characters. -/
def digitsToNat (cs : List Char) : Nat :=
  cs.foldl (fun a c => a * 10 + (c.toNat - 48)) 0

/-- First character of a string, if any. -/
def firstChar (s : String) : Option Char :=
  s.data.head?

theorem data_append (s t : String) : (s ++ t).data = s.data ++ t.data := rfl

theorem ne_of_firstChar (s t : String) (h : firstChar s ≠ firstChar t) : s ≠ t :=
  fun he => h (by rw [he])

theorem fc_append (s t : String) (c : Char) (h : firstChar s = some c) :
    firstChar (s ++ t) = some c := by
  unfold firstChar at *
  rw [data_append]
  cases hd : s.data with
  | nil => rw [hd] at h; exact absurd h (by simp)
  | cons a l => rw [hd] at h; simpa using h

theorem fc_joinSep (sep x : String) (l : List String) (c : Char)
    (h : firstChar x = some c) : firstChar (joinSep sep (x :: l)) = some c := by
  cases l with
  | nil => simpa [joinSep] using h
  | cons y r => simpa [joinSep] using fc_append _ _ _ (fc_append _ _ _ h)

/-! ## Fixed-point number formatting (Python format specs .2f, ,.0f, ...) -/

/-- Round a rational to the nearest integer, ties to even (the rounding
used by Python float formatting). -/
def roundHalfEven (q : ℚ) : ℤ :=
  let f := q.floor
  let r := q - (f : ℚ)
  if r < 1/2 then f
  else if 1/2 < r then f + 1
  else if f % 2 = 0 then f else f + 1

/-- Insert thousands separators into a digit string. -/
def groupDigits (s : String) : String :=
  let rec go : List Char → List Char
    | c1 :: c2 :: c3 :: c4 :: rest => c1 :: c2 :: c3 :: ',' :: go (c4 :: rest)
    | l => l
  String.mk ((go s.data.reverse).reverse)

/-- Render scaled units (value × 10^d already rounded to an integer) with
d decimal places, optionally with thousands separators. -/
def fmtUnits (u : ℤ) (d : Nat) (comma : Bool) : String :=
  let n := u.natAbs
  let ip := n / 10 ^ d
  let fp := n % 10 ^ d
  let ipStr := if comma then groupDigits (toString ip) else toString ip
  let signed := (if u < 0 then "-" else "") ++ ipStr
  if d = 0 then signed else signed ++ "." ++ padZeros (toString fp) d

/-- Python format(q, '.df') / format(q, ',.df'). -/
def pyFormat (q : ℚ) (d : Nat) (comma : Bool) : String :=
  fmtUnits (roundHalfEven (q * ((10 : ℚ) ^ d))) d comma

/-! ## Proleptic Gregorian calendar (datetime strptime/strftime/timedelta) -/

/-- Is a year a Gregorian leap year? -/
def isLeapYear (y : Nat) : Bool :=
  (y % 4 == 0) && (y % 100 != 0 || y % 400 == 0)

/-- Days in a month. -/
def monthLen (y m : Nat) : Nat :=
  if m = 2 then (if isLeapYear y then 29 else 28)
  else if m = 4 ∨ m = 6 ∨ m = 9 ∨ m = 11 then 30
  else 31

/-- Days since 1970-01-01 of a civil date (Hinnant's days_from_civil). -/
def daysFromCivil (y : ℤ) (m d : Nat) : ℤ :=
  let y' := if m ≤ 2 then y - 1 else y
  let era := Int.fdiv y' 400
  let yoe := (y' - era * 400).toNat
  let mp := if 2 < m then m - 3 else m + 9
  let doy := (153 * mp + 2) / 5 + (d - 1)
  let doe := yoe * 365 + yoe / 4 - yoe / 100 + doy
  era * 146097 + (doe : ℤ) - 719468

/-- Civil date from days since 1970-01-01 (Hinnant's civil_from_days). -/
def civilFromDays (z : ℤ) : ℤ × Nat × Nat :=
  let z' := z + 719468
  let era := Int.fdiv z' 146097
  let doe := (z' - era * 146097).toNat
  let yoe := (doe - doe / 1460 + doe / 36524 - doe / 146096) / 365
  let y := (yoe : ℤ) + era * 400
  let doy := doe - (365 * yoe + yoe / 4 - yoe / 100)
  let mp := (5 * doy + 2) / 153
  let d := doy - (153 * mp + 2) / 5 + 1
  let m := if mp < 10 then mp + 3 else mp - 9
  (y + (if m ≤ 2 then 1 else 0), m, d)

/-- datetime.strptime(s, '%Y%m%d') for well-formed 8-digit dates; None
models the ValueError raised on malformed input.  (strptime also
accepts some shorter digit runs; the tools are only ever exercised with
8-digit dates, where the two agree.) -/
def parseYmd (s : String) : Option (Nat × Nat × Nat) :=
  let cs := s.data
  if cs.length = 8 ∧ cs.all Char.isDigit then
    let y := digitsToNat (cs.take 4)
    let m := digitsToNat ((cs.drop 4).take 2)
    let d := digitsToNat (cs.drop 6)
    if 1 ≤ y ∧ 1 ≤ m ∧ m ≤ 12 ∧ 1 ≤ d ∧ d ≤ monthLen y m then
      some (y, m, d)
    else none
  else none

/-- strftime('%Y%m%d') of a day number, None modelling the
OverflowError datetime raises outside [0001-01-01, 9999-12-31]. -/
def fmtDaysOpt (n : ℤ) : Option String :=
  if n < daysFromCivil 1 1 1 ∨ daysFromCivil 9999 12 31 < n then none
  else
    let c := civilFromDays n
    some (padZeros (toString c.1) 4 ++ padZeros (toString c.2.1) 2 ++
      padZeros (toString c.2.2) 2)

/-- Day number of a parsed (y, m, d) triple. -/
def daysOfYmd (t : Nat × Nat × Nat) : ℤ :=
  daysFromCivil (t.1 : ℤ) t.2.1 t.2.2

/-! ## dotenv / process-environment state

Models the state touched by init_env_file, get_tushare_token and
set_tushare_token (src/server.py lines 167-206; src/intraday.py lines
51-97 behaves identically on this state: when the project .env file
exists it is ENV_FILE and init only loads it, which is the
fileExists = true branch below; otherwise the user-home file is
created on demand exactly as in server.py). -/

structure Env where
  fileExists : Bool
  fileVars : List (String × String)
  osVars : List (String × String)
deriving DecidableEq, Repr

/-- os.environ / dotenv lookup: first binding wins. -/
def lookupEnv (m : List (String × String)) (k : String) : Option String :=
  (m.find? (fun p => p.1 == k)).map (fun p => p.2)

/-- load_dotenv(ENV_FILE): copies file bindings into the process
environment WITHOUT overriding existing variables (python-dotenv
default override=False). -/
def loadDotenv (s : Env) : Env :=
  { s with
    osVars := s.fileVars.foldl
      (fun acc kv => if (lookupEnv acc kv.1).isSome then acc else acc ++ [kv])
      s.osVars }

/-- init_env_file (src/server.py lines 167-184): ensure the env file
exists (creating an empty one if needed) and load it. -/
def init_env_file (s : Env) : Env :=
  if s.fileExists then loadDotenv s
  else loadDotenv { fileExists := true, fileVars := [], osVars := s.osVars }

/-- dotenv set_key: update or append one binding in the file. -/
def setKeyFile (m : List (String × String)) (k v : String) : List (String × String) :=
  match m with
  | [] => [(k, v)]
  | (k', v') :: rest =>
    if k' == k then (k, v) :: rest else (k', v') :: setKeyFile rest k v

/-- get_tushare_token (src/server.py lines 186-192, src/intraday.py
lines 78-84): init, then os.getenv("TUSHARE_TOKEN"). -/
def get_tushare_token (s : Env) : Option String × Env :=
  let s' := init_env_file s
  (lookupEnv s'.osVars "TUSHARE_TOKEN", s')

/-- set_tushare_token (src/server.py lines 194-205, src/intraday.py
lines 86-97): init, then set_key(ENV_FILE, "TUSHARE_TOKEN", token).
(ts.set_token only configures the tushare client object and is not
observable through get_tushare_token.) -/
def set_tushare_token (token : String) (s : Env) : Env :=
  let s' := init_env_file s
  { s' with fileVars := setKeyFile s'.fileVars "TUSHARE_TOKEN" token }

/-! ## Remote data model and tool plumbing -/

structure StockRow where
  ts_code : String
  name : String
deriving DecidableEq, Repr

/-- A DataFrame cell for a price field: a numeric value
(pd.to_numeric succeeds), a non-numeric value, or NaN/absent. -/
inductive Cell
  | num (q : ℚ)
  | raw (s : String)
  | missing
deriving DecidableEq, Repr

/-- _get_stock_name (src/intraday.py lines 36-48, src/server.py lines
30-42) when called with a real pro-api instance: one stock_basic call;
on exception or empty result the ts_code is returned. -/
def _get_stock_name (nameResp : Except Unit (List StockRow)) (ts_code : String) : String :=
  match nameResp with
  | .error _ => ts_code
  | .ok [] => ts_code
  | .ok (r :: _) => r.name

/-- The result of running one tool: the returned string, the state
after the run, and how many remote queries were issued. -/
structure ToolRun where
  out : String
  env : Env
  calls : Nat
deriving DecidableEq, Repr

def tokenErrMsg : String :=
  "错误：Tushare token 未配置或无法获取。请使用 setup_tushare_token 配置。"

def dateErrMsg : String :=
  "错误：请提供 trade_date (用于单日查询) 或 start_date 和 end_date (用于区间查询)。"

/-! ## search_stocks (src/intraday.py lines 147-174, src/server.py lines 317-344) -/

def searchMask (keyword : String) (r : StockRow) : Bool :=
  containsCI keyword r.ts_code || containsCI keyword r.name

def searchLine (r : StockRow) : String :=
  r.ts_code ++ " - " ++ r.name

def search_stocks_intraday (s : Env) (keyword : String)
    (resp : Except String (List StockRow)) : ToolRun :=
  let t := get_tushare_token s
  if !(pyTruthyO t.1) then ⟨tokenErrMsg, t.2, 0⟩
  else
    match resp with
    | .error e => ⟨"搜索股票失败：" ++ e, t.2, 1⟩
    | .ok df =>
      let results := df.filter (searchMask keyword)
      if results.isEmpty then ⟨"未找到符合条件的股票", t.2, 1⟩
      else ⟨joinSep "\n" (results.map searchLine), t.2, 1⟩

/-- The server.py copy joins the result lines with the literal
two-character sequence backslash-n (source line 340 reads
return "\\n".join(output) inside a normal string, i.e. an escaped
backslash), and its except-branch message differs. -/
def search_stocks_server (s : Env) (keyword : String)
    (resp : Except String (List StockRow)) : ToolRun :=
  let t := get_tushare_token s
  if !(pyTruthyO t.1) then ⟨tokenErrMsg, t.2, 0⟩
  else
    match resp with
    | .error e => ⟨"搜索失败：" ++ e, t.2, 1⟩
    | .ok df =>
      let results := df.filter (searchMask keyword)
      if results.isEmpty then ⟨"未找到符合条件的股票", t.2, 1⟩
      else ⟨joinSep "\\n" (results.map searchLine), t.2, 1⟩

/-! ## get_daily_prices (src/intraday.py lines 176-249, src/server.py lines 346-419) -/

structure DailyReq where
  ts_code : String
  trade_date : Option String
  start_date : Option String
  end_date : Option String
deriving DecidableEq, Repr

/-- The api_params dict passed to pro.daily (fields string omitted:
it is the constant 'ts_code,trade_date,open,high,low,close,vol,amount'). -/
def dailyRequest (ts_code : String) (td sd ed : Option String) : DailyReq :=
  { ts_code := ts_code
    trade_date := if pyTruthyO td then td else none
    start_date := if pyTruthyO sd && pyTruthyO ed then sd else none
    end_date := if pyTruthyO sd && pyTruthyO ed then ed else none }

structure DailyRow where
  trade_date : String
  open_ : Cell
  high : Cell
  low : Cell
  close : Cell
  vol : Cell
  amount : Cell
deriving DecidableEq, Repr

/-- Lexicographic comparison on character lists (how pandas compares
the YYYYMMDD date strings being sorted). -/
def charListLe : List Char → List Char → Bool
  | [], _ => true
  | _ :: _, [] => false
  | a :: as, b :: bs => if a = b then charListLe as bs else decide (a < b)

/-- String comparison used by the sort. -/
def strLe (s t : String) : Bool := charListLe s.data t.data

def insertDescBy (key : α → String) (x : α) : List α → List α
  | [] => [x]
  | y :: ys => if strLe (key y) (key x) then x :: y :: ys else y :: insertDescBy key x ys

/-- df.sort_values(by=key, ascending=False). -/
def sortDescBy (key : α → String) : List α → List α
  | [] => []
  | x :: xs => insertDescBy key x (sortDescBy key xs)

/-- One entry of the price_fields loop in get_daily_prices. -/
def fmtDailyField (field label : String) (c : Cell) : String :=
  match c with
  | .missing => "  " ++ label ++ ": 未提供"
  | .raw v => "  " ++ label ++ ": (值非数字: " ++ v ++ ")"
  | .num q =>
    if field == "vol" then "  " ++ label ++ ": " ++ pyFormat q 0 true ++ " 手"
    else if field == "amount" then "  " ++ label ++ ": " ++ pyFormat q 2 true ++ " 千元"
    else "  " ++ label ++ ": " ++ pyFormat q 2 false ++ " 元"

def dailyRowLines (r : DailyRow) : List String :=
  ("\n日期: " ++ r.trade_date) ::
  [fmtDailyField "open" "开盘价" r.open_,
   fmtDailyField "high" "最高价" r.high,
   fmtDailyField "low" "最低价" r.low,
   fmtDailyField "close" "收盘价" r.close,
   fmtDailyField "vol" "成交量" r.vol,
   fmtDailyField "amount" "成交额" r.amount]

/-- The date-parameter validation on src/intraday.py line 192 and
src/server.py line 362, with Python truthiness. -/
def validDaily (td sd ed : Option String) : Bool :=
  (pyTruthyO td && !(pyTruthyO sd || pyTruthyO ed)) ||
  ((pyTruthyO sd && pyTruthyO ed) && !(pyTruthyO td))

/-- The try-block of get_daily_prices, identical character for
character in src/intraday.py lines 195-245 and src/server.py lines
365-415 (only the except-branch messages of the two wrappers differ).
The Nat component counts remote queries: one pro.daily call, plus one
stock_basic call (via _get_stock_name) when rows were returned. -/
def get_daily_prices_body (ts_code : String) (td sd ed : Option String)
    (oracle : DailyReq → Except String (List DailyRow))
    (nameOracle : String → Except Unit (List StockRow)) :
    Except String String × Nat :=
  match oracle (dailyRequest ts_code td sd ed) with
  | .error e => (.error e, 1)
  | .ok df =>
    if df.isEmpty then
      if pyTruthyO td then
        (.ok ("未找到 " ++ ts_code ++ " 在 " ++ pyShow td ++ " 的日线行情数据。"), 1)
      else
        (.ok ("未找到 " ++ ts_code ++ " 在 " ++ pyShow sd ++ " 到 " ++ pyShow ed ++ " 期间的日线行情数据。"), 1)
    else
      let sorted := sortDescBy (fun r => r.trade_date) df
      let stock_name := _get_stock_name (nameOracle ts_code) ts_code
      let header :=
        if pyTruthyO td then
          "--- " ++ stock_name ++ " (" ++ ts_code ++ ") " ++ pyShow td ++ " 价格信息 ---"
        else
          "--- " ++ stock_name ++ " (" ++ ts_code ++ ") " ++ pyShow sd ++ " to " ++ pyShow ed ++ " 价格信息 ---"
      (.ok (joinSep "\n" (header :: (sorted.map dailyRowLines).flatten)), 2)

def get_daily_prices_intraday (s : Env) (ts_code : String) (td sd ed : Option String)
    (oracle : DailyReq → Except String (List DailyRow))
    (nameOracle : String → Except Unit (List StockRow)) : ToolRun :=
  let t := get_tushare_token s
  if !(pyTruthyO t.1) then ⟨tokenErrMsg, t.2, 0⟩
  else if !(validDaily td sd ed) then ⟨dateErrMsg, t.2, 0⟩
  else
    match get_daily_prices_body ts_code td sd ed oracle nameOracle with
    | (.ok o, n) => ⟨o, t.2, n⟩
    | (.error e, n) => ⟨"获取日线行情失败：" ++ e, t.2, n⟩

def get_daily_prices_server (s : Env) (ts_code : String) (td sd ed : Option String)
    (oracle : DailyReq → Except String (List DailyRow))
    (nameOracle : String → Except Unit (List StockRow)) : ToolRun :=
  let t := get_tushare_token s
  if !(pyTruthyO t.1) then ⟨tokenErrMsg, t.2, 0⟩
  else if !(validDaily td sd ed) then ⟨dateErrMsg, t.2, 0⟩
  else
    match get_daily_prices_body ts_code td sd ed oracle nameOracle with
    | (.ok o, n) => ⟨o, t.2, n⟩
    | (.error e, n) => ⟨"获取每日价格数据失败：" ++ e, t.2, n⟩

/-! ## get_start_date_for_n_days (src/intraday.py lines 251-293, src/server.py lines 904-946) -/

structure CalReq where
  start_date : String
  end_date : String
  is_open : String
deriving DecidableEq, Repr

/-- The trade_cal request parameters computed by
get_start_date_for_n_days before its single remote call: the start
date is ESTIMATED by date arithmetic, end_date minus
int(days_ago / 0.5) = 2 * days_ago calendar days.  None models the
exceptions raised before the call (strptime ValueError on a malformed
end_date, OverflowError when the subtraction leaves the datetime
range). -/
def startRequest (end_date : String) (days_ago : ℤ) : Option CalReq :=
  match parseYmd end_date with
  | none => none
  | some dt =>
    match fmtDaysOpt (daysOfYmd dt - 2 * days_ago) with
    | none => none
    | some sEst => some ⟨sEst, end_date, "1"⟩

/-- Python list indexing lst[i] including negative indices; the error
is the IndexError message. -/
def pyIndex (l : List String) (i : ℤ) : Except String String :=
  let j := if 0 ≤ i then i else (l.length : ℤ) + i
  if 0 ≤ j then
    match l.get? j.toNat with
    | some x => .ok x
    | none => .error "list index out of range"
  else .error "list index out of range"

/-- The try-block of get_start_date_for_n_days, identical in
src/intraday.py lines 265-288 and src/server.py lines 918-941 (the two
wrappers differ only in the except-branch message).  The oracle is the
trade_cal endpoint restricted to is_open='1' rows; it returns the
cal_date column. -/
def get_start_date_body (end_date : String) (days_ago : ℤ)
    (oracle : CalReq → Except String (List String)) :
    Except String String × Nat :=
  match parseYmd end_date with
  | none =>
    (.error ("time data '" ++ end_date ++ "' does not match format '%Y%m%d'"), 0)
  | some dt =>
    match fmtDaysOpt (daysOfYmd dt - 2 * days_ago) with
    | none => (.error "date value out of range", 0)
    | some sEst =>
      match oracle ⟨sEst, end_date, "1"⟩ with
      | .error e => (.error e, 1)
      | .ok df =>
        if df.isEmpty || (df.length : ℤ) < days_ago then
          (.ok ("错误：无法获取足够的交易日数据。在 " ++ sEst ++ " 和 " ++ end_date ++
            " 之间只找到了 " ++ toString df.length ++ " 个交易日，需要 " ++
            toString days_ago ++ " 个。"), 1)
        else
          let trading_days := sortDescBy (fun d => d) df
          if (trading_days.length : ℤ) < days_ago then
            (.ok ("错误：再次确认，交易日数据不足。在 " ++ sEst ++ " 和 " ++ end_date ++
              " 之间只找到了 " ++ toString trading_days.length ++ " 个交易日，需要 " ++
              toString days_ago ++ " 个。"), 1)
          else
            match pyIndex trading_days (days_ago - 1) with
            | .error e => (.error e, 1)
            | .ok start_date_actual =>
              (.ok ("查询成功。对于结束日期 " ++ end_date ++ "，往前 " ++
                toString days_ago ++ " 个交易日的开始日期是: " ++ start_date_actual), 1)

def get_start_date_intraday (s : Env) (end_date : String) (days_ago : ℤ)
    (oracle : CalReq → Except String (List String)) : ToolRun :=
  let t := get_tushare_token s
  if !(pyTruthyO t.1) then ⟨tokenErrMsg, t.2, 0⟩
  else
    match get_start_date_body end_date days_ago oracle with
    | (.ok o, n) => ⟨o, t.2, n⟩
    | (.error e, n) => ⟨"计算起始日期失败：" ++ e, t.2, n⟩

/-- The server.py copy: identical except for the except-branch message
(ASCII colon and space instead of a fullwidth colon). -/
def get_start_date_server (s : Env) (end_date : String) (days_ago : ℤ)
    (oracle : CalReq → Except String (List String)) : ToolRun :=
  let t := get_tushare_token s
  if !(pyTruthyO t.1) then ⟨tokenErrMsg, t.2, 0⟩
  else
    match get_start_date_body end_date days_ago oracle with
    | (.ok o, n) => ⟨o, t.2, n⟩
    | (.error e, n) => ⟨"计算起始日期失败: " ++ e, t.2, n⟩

/-! ## get_trade_calendar (src/server.py lines 478-532) -/

structure CalQuery where
  exchange : String
  start_date : Option String
  end_date : Option String
deriving DecidableEq, Repr

structure CalRow where
  cal_date : String
  is_open : ℤ
deriving DecidableEq, Repr

/-- Split a list into chunks of ten (the output loop
for i in range(0, len(day_list), 10)). -/
def chunk10 (l : List String) : List (List String) :=
  match l with
  | [] => []
  | x :: xs => (x :: xs.take 9) :: chunk10 (xs.drop 9)
termination_by l.length
decreasing_by simp [List.length_drop]; omega

def get_trade_calendar_body (exchange : String) (sd ed : Option String)
    (oracle : CalQuery → Except String (List CalRow)) :
    Except String String × Nat :=
  match oracle ⟨exchange, sd, ed⟩ with
  | .error e => (.error e, 1)
  | .ok df =>
    if df.isEmpty then (.ok "未找到符合条件的交易日历数据。", 1)
    else
      let trading_days := df.filter (fun r => r.is_open == 1)
      if trading_days.isEmpty then (.ok "在指定日期范围内没有找到交易日。", 1)
      else
        let header := "--- 交易日历查询结果 (交易所: " ++
          (if exchange == "" then "默认" else exchange) ++ ") ---"
        let df_limited := trading_days.take 100
        let day_list := df_limited.map (fun r => r.cal_date)
        let chunkLines := (chunk10 day_list).map (joinSep " ")
        let base := header :: "交易日列表:" :: chunkLines
        let results :=
          if 100 < trading_days.length then
            base ++ ["\n注意: 结果超过100条，仅显示前100条。总共有 " ++
              toString trading_days.length ++ " 个交易日。"]
          else base
        (.ok (joinSep "\n" results), 1)

def get_trade_calendar (s : Env) (exchange : String) (sd ed : Option String)
    (oracle : CalQuery → Except String (List CalRow)) : ToolRun :=
  let t := get_tushare_token s
  if !(pyTruthyO t.1) then ⟨tokenErrMsg, t.2, 0⟩
  else
    match get_trade_calendar_body exchange sd ed oracle with
    | (.ok o, n) => ⟨o, t.2, n⟩
    | (.error e, n) => ⟨"获取交易日历失败: " ++ e, t.2, n⟩

/-! ## get_weekly_prices / get_monthly_prices (src/server.py lines 534-717 and 719-902)

Both tools call _get_stock_name with the arguments SWAPPED
(for example src/server.py line 586: _get_stock_name(ts_code, pro)),
so pro_api_instance is bound to the ts_code string and ts_code to the
pro client object: the attempted stock_basic attribute access on a
string raises AttributeError locally (caught inside _get_stock_name,
no remote query), and the function returns its ts_code parameter,
i.e. the pro client object, whose repr is then interpolated into the
output.  proRepr below is that repr text. -/

structure PeriodReq where
  ts_code : Option String
  trade_date : Option String
  start_date : Option String
  end_date : Option String
deriving DecidableEq, Repr

/-- Keep an argument in query_params only when truthy (if ts_code: ...). -/
def truthyKeep (o : Option String) : Option String :=
  if pyTruthyO o then o else none

def periodReq (ts td sd ed : Option String) : PeriodReq :=
  ⟨truthyKeep ts, truthyKeep td, truthyKeep sd, truthyKeep ed⟩

structure PeriodRow where
  ts_code : Option String
  trade_date : Option String
  open_ : Cell
  high : Cell
  low : Cell
  close : Cell
  pre_close : Cell
  change : Cell
  pct_chg : Cell
  vol : Cell
  amount : Cell
deriving DecidableEq, Repr

/-- One entry of the fields_to_display loop in the weekly/monthly tools. -/
def fmtPeriodField (field label : String) (c : Cell) : String :=
  match c with
  | .missing => "  " ++ label ++ ": 未提供"
  | .raw v => "  " ++ label ++ ": (值非数字: " ++ v ++ ")"
  | .num q =>
    if field == "vol" then "  " ++ label ++ ": " ++ pyFormat q 0 true ++ " 手"
    else if field == "amount" then "  " ++ label ++ ": " ++ pyFormat q 2 true ++ " 千元"
    else if field == "pct_chg" then "  " ++ label ++ ": " ++ pyFormat q 2 false ++ "%"
    else "  " ++ label ++ ": " ++ pyFormat q 2 false ++ " 元"

/-- The fields_to_display list of get_weekly_prices. -/
def weeklyFieldLines (r : PeriodRow) : List String :=
  [fmtPeriodField "open" "开盘价" r.open_,
   fmtPeriodField "high" "最高价" r.high,
   fmtPeriodField "low" "最低价" r.low,
   fmtPeriodField "close" "收盘价" r.close,
   fmtPeriodField "pre_close" "上周收盘价" r.pre_close,
   fmtPeriodField "change" "周涨跌额" r.change,
   fmtPeriodField "pct_chg" "周涨跌幅(%)" r.pct_chg,
   fmtPeriodField "vol" "成交量" r.vol,
   fmtPeriodField "amount" "成交额" r.amount]

/-- The fields_to_display list of get_monthly_prices. -/
def monthlyFieldLines (r : PeriodRow) : List String :=
  [fmtPeriodField "open" "开盘价" r.open_,
   fmtPeriodField "high" "最高价" r.high,
   fmtPeriodField "low" "最低价" r.low,
   fmtPeriodField "close" "收盘价" r.close,
   fmtPeriodField "pre_close" "上月收盘价" r.pre_close,
   fmtPeriodField "change" "月涨跌额" r.change,
   fmtPeriodField "pct_chg" "月涨跌幅(%)" r.pct_chg,
   fmtPeriodField "vol" "成交量" r.vol,
   fmtPeriodField "amount" "成交额" r.amount]

/-- Shared shape of the weekly/monthly try-blocks, parameterised over
the texts that differ between the two copies. -/
def periodToolBody (kind : String) (fieldLines : PeriodRow → List String)
    (proRepr : String) (ts td sd ed : Option String)
    (oracle : PeriodReq → Except String (List PeriodRow)) :
    Except String String × Nat :=
  if !(pyTruthyO ts) && !(pyTruthyO td) then
    (.ok "错误：必须提供ts_code或trade_date参数之一", 0)
  else
    match oracle (periodReq ts td sd ed) with
    | .error e => (.error e, 1)
    | .ok df0 =>
      if df0.isEmpty then (.ok ("未找到符合条件的" ++ kind ++ "数据"), 1)
      else
        let warn := 20 < df0.length
        let df := if 20 < df0.length then df0.take 20 else df0
        let results :=
          if pyTruthyO ts && !(pyTruthyO td) then
            ("--- " ++ pyShow ts ++ " " ++ proRepr ++ " " ++ kind ++ "行情 ---") ::
            (df.map (fun r =>
              ("交易日期: " ++ (r.trade_date.getD "N/A")) ::
              fieldLines r ++ ["------------------------"])).flatten
          else if pyTruthyO td && !(pyTruthyO ts) then
            ("--- " ++ pyShow td ++ " 交易日" ++ kind ++ "行情 ---") ::
            (df.map (fun r =>
              ((r.ts_code.getD "N/A") ++ " " ++ proRepr ++ ":") ::
              fieldLines r ++ ["------------------------"])).flatten
          else
            ("--- " ++ pyShow ts ++ " " ++ proRepr ++ " " ++ pyShow td ++ " " ++
              kind ++ "行情 ---") ::
            (match df with
             | [] => []
             | r :: _ => fieldLines r)
        let results' :=
          if warn then
            results ++ ["注意: 结果超过20条，仅显示前20条。请缩小日期范围以获取更精确的结果。"]
          else results
        (.ok (joinSep "\n" results'), 1)

def get_weekly_prices (s : Env) (proRepr : String) (ts td sd ed : Option String)
    (oracle : PeriodReq → Except String (List PeriodRow)) : ToolRun :=
  let t := get_tushare_token s
  if !(pyTruthyO t.1) then ⟨tokenErrMsg, t.2, 0⟩
  else
    match periodToolBody "周线" weeklyFieldLines proRepr ts td sd ed oracle with
    | (.ok o, n) => ⟨o, t.2, n⟩
    | (.error e, n) => ⟨"获取周线行情数据失败：" ++ e, t.2, n⟩

def get_monthly_prices (s : Env) (proRepr : String) (ts td sd ed : Option String)
    (oracle : PeriodReq → Except String (List PeriodRow)) : ToolRun :=
  let t := get_tushare_token s
  if !(pyTruthyO t.1) then ⟨tokenErrMsg, t.2, 0⟩
  else
    match periodToolBody "月线" monthlyFieldLines proRepr ts td sd ed oracle with
    | (.ok o, n) => ⟨o, t.2, n⟩
    | (.error e, n) => ⟨"获取月线行情数据失败：" ++ e, t.2, n⟩

/-! ## refer.py: normalize_stock_code and get_pe_percentile -/

/-- normalize_stock_code (src/refer.py lines 67-79): strip and
lowercase, then re.match(r'^(sh|sz)\d{6}$', code).  The d-escape in
the pattern is a decimal-digit class; since the code was stripped
first, the end anchor coincides with end-of-string. -/
def normalize_stock_code (code : String) : Option String :=
  let c := toLowerStr (pyStrip code)
  match c.data with
  | a :: x :: rest =>
    if a == 's' && (x == 'h' || x == 'z') && rest.length == 6 && rest.all Char.isDigit then
      some c
    else none
  | _ => none

structure PERow where
  stock_code : String
  pe_percentile_3y : Option ℚ
deriving DecidableEq, Repr

def peFmtErrMsg (stock_code : String) : String :=
  "股票代码格式错误：'" ++ stock_code ++ "'。请使用标准格式，如：sh600739 或 sz301011"

/-- The body of get_pe_percentile (src/refer.py lines 83-107) before
the supabase_tool_handler decorator is applied.  The oracle is the
single stocks-table query filtered on the normalized code; Except.error
models an exception escaping the body.  The Nat counts remote
(Supabase) queries. -/
def get_pe_percentile_body (stock_code : String)
    (resp : Except String (List PERow)) : Except String String × Nat :=
  match normalize_stock_code stock_code with
  | none => (.ok (peFmtErrMsg stock_code), 0)
  | some _ =>
    match resp with
    | .error e => (.error e, 1)
    | .ok [] => (.ok ("未找到股票：" ++ stock_code), 1)
    | .ok (r :: _) =>
      match r.pe_percentile_3y with
      | none => (.ok ("股票 " ++ stock_code ++ " 暂无PE分位数据"), 1)
      | some q => (.ok ("股票 " ++ stock_code ++ " 的近三年PE分位：" ++ pyFormat q 4 false), 1)

/-- get_pe_percentile as registered: the supabase_tool_handler
decorator (src/refer.py lines 25-35) catches every exception from the
body and returns the failure string instead. -/
def get_pe_percentile (stock_code : String)
    (resp : Except String (List PERow)) : String × Nat :=
  match get_pe_percentile_body stock_code resp with
  | (.ok o, n) => (o, n)
  | (.error e, n) => ("查询失败: " ++ e, n)

/-! ## server.py token tools: setup_tushare_token and check_token_status -/

/-- setup_tushare_token (src/server.py lines 209-235).  valResp is the
validating pro.stock_basic(limit=1) call made after persisting the
token. -/
def setup_tushare_token (token : String) (s : Env)
    (valResp : Except String (List StockRow)) : String × Env :=
  if token == "" then ("错误：请提供有效的Tushare API Token", s)
  else
    let s1 := set_tushare_token token s
    match valResp with
    | .error e => ("设置Token失败：" ++ e, s1)
    | .ok [] => ("警告：Token已设置，但可能无效。请检查Token是否正确。", s1)
    | .ok (_ :: _) => ("Tushare API Token配置成功！", s1)

/-- The possible outcomes of evaluating a Python code path: a normal
string return, or a NameError on an unbound identifier. -/
inductive PyResult
  | ok (s : String)
  | nameError (ident : String)
deriving DecidableEq, Repr

/-- check_token_status (src/server.py lines 237-262).  Every execution
path of its first try-statement returns, so the orphaned search_index
block spliced in at lines 268-314 is never reached. -/
def check_token_status (s : Env)
    (valResp : Except String (List StockRow)) : PyResult × Env :=
  let t := get_tushare_token s
  if !(pyTruthyO t.1) then
    (.ok "未配置Tushare API Token。请使用setup_tushare_token工具配置Token。", t.2)
  else
    match valResp with
    | .error e => (.ok ("检查Token状态失败：" ++ e), t.2)
    | .ok [] => (.ok "警告：Token已配置，但可能无效。请检查Token是否正确。", t.2)
    | .ok (_ :: _) =>
      let tok := (t.1).getD ""
      let masked := if 4 < tok.length then "****" ++ takeRight tok 4 else "****"
      (.ok ("Tushare API Token状态正常，可以使用。Token: " ++ masked), t.2)

/-- The free identifiers of the orphaned search_index body
(src/server.py lines 268-314): names it reads that are bound nowhere
in its enclosing scope (check_token_status binds token, pro, df, e). -/
def orphan_free_identifiers : List String :=
  ["token_value", "index_name", "market", "publisher", "category"]

/-- Evaluating the orphaned block itself: its first statement is
pro = ts.pro_api(token_value) (src/server.py line 269), whose first
unbound name lookup is token_value, so it raises
NameError('token_value'). -/
def orphaned_search_index_block : PyResult :=
  PyResult.nameError "token_value"

/-! ## Route tables: how each file wires HTTP and MCP/SSE

The registrations performed at import time by each file.  The
HandlerKind tags the handler wired to a route: sseHandshake is the
handle_mcp_sse_handshake coroutine built over a module-level
SseServerTransport('/sse/messages/'), messagesMount is
app.mount('/sse/messages/', sse_transport.handle_post_message), and
ssePerRequest is src/intraday.py's sse_endpoint (lines 296-300), which
instead constructs SseServerTransport(request) per request and calls
the nonexistent methods mcp.handle_request and transport.response. -/

inductive HandlerKind
  | rootHello
  | setupTokenApi
  | sseHandshake
  | messagesMount
  | ssePerRequest
deriving DecidableEq, Repr

structure Route where
  method : String
  path : String
  kind : HandlerKind
deriving DecidableEq, Repr

/-- src/server.py: lines 135, 140, 463, 468. -/
def server_routes : List Route :=
  [⟨"GET", "/", .rootHello⟩,
   ⟨"POST", "/tools/setup_tushare_token", .setupTokenApi⟩,
   ⟨"GET", "/sse", .sseHandshake⟩,
   ⟨"MOUNT", "/sse/messages/", .messagesMount⟩]

/-- src/refer.py: lines 109, 151, 152. -/
def refer_routes : List Route :=
  [⟨"GET", "/", .rootHello⟩,
   ⟨"GET", "/sse", .sseHandshake⟩,
   ⟨"MOUNT", "/sse/messages/", .messagesMount⟩]

/-- src/intraday.py: lines 115, 120, 296. -/
def intraday_routes : List Route :=
  [⟨"GET", "/", .rootHello⟩,
   ⟨"POST", "/tools/setup_tushare_token", .setupTokenApi⟩,
   ⟨"GET", "/sse", .ssePerRequest⟩]

def hasMessagesMount (rs : List Route) : Bool :=
  rs.any (fun r => r.kind == HandlerKind.messagesMount)

/-- The SSE-related registrations of a file (paths under /sse). -/
def sseRoutes (rs : List Route) : List Route :=
  rs.filter (fun r => startsWithL "/sse".data r.path.data)

/-! ## Lemmas about the dotenv state model -/

/-- First-wins choice on options (how overriding works for environment
lookups). -/
def optOr (a b : Option String) : Option String :=
  match a with
  | some x => some x
  | none => b

theorem lookupEnv_nil (k : String) : lookupEnv [] k = none := rfl

theorem lookupEnv_cons (k' v' : String) (m : List (String × String)) (k : String) :
    lookupEnv ((k', v') :: m) k = if (k' == k) then some v' else lookupEnv m k := by
  by_cases h : (k' == k) <;> simp [lookupEnv, List.find?, h]

theorem lookupEnv_append (m1 m2 : List (String × String)) (k : String) :
    lookupEnv (m1 ++ m2) k = optOr (lookupEnv m1 k) (lookupEnv m2 k) := by
  induction m1 with
  | nil => simp [lookupEnv_nil, optOr]
  | cons p rest ih =>
    rcases p with ⟨k', v'⟩
    by_cases h : (k' == k) <;>
      simp [lookupEnv_cons, h, ih, optOr]

/-- Lookup after the no-override merge performed by load_dotenv: the
process environment wins over the file. -/
theorem lookup_merge (file : List (String × String)) :
    ∀ (os : List (String × String)) (k : String),
      lookupEnv
        (file.foldl
          (fun acc kv => if (lookupEnv acc kv.1).isSome then acc else acc ++ [kv]) os) k
        = optOr (lookupEnv os k) (lookupEnv file k) := by
  induction file with
  | nil =>
    intro os k
    cases h : lookupEnv os k <;> simp [lookupEnv_nil, optOr, h]
  | cons kv rest ih =>
    intro os k
    rcases kv with ⟨k', v'⟩
    simp only [List.foldl_cons]
    by_cases h1 : (lookupEnv os k').isSome
    · simp only [h1, if_pos]
      rw [ih]
      by_cases hk : (k' == k)
      · have hk' : k' = k := by simpa using hk
        subst hk'
        rcases h2 : lookupEnv os k' with _ | v
        · rw [h2] at h1; simp at h1
        · simp [optOr, lookupEnv_cons, hk]
      · simp [lookupEnv_cons, hk]
    · simp only [h1, if_neg, Bool.not_eq_true]
      rw [ih, lookupEnv_append]
      by_cases hk : (k' == k)
      · have hk' : k' = k := by simpa using hk
        subst hk'
        rcases h2 : lookupEnv os k' with _ | v
        · simp [optOr, lookupEnv_cons, hk, h2]
        · rw [h2] at h1; simp at h1
      · cases h2 : lookupEnv os k <;>
          simp [optOr, lookupEnv_cons, lookupEnv_nil, hk, h2]

theorem lookup_loadDotenv (s : Env) (k : String) :
    lookupEnv (loadDotenv s).osVars k
      = optOr (lookupEnv s.osVars k) (lookupEnv s.fileVars k) := by
  unfold loadDotenv
  exact lookup_merge s.fileVars s.osVars k

theorem loadDotenv_fileVars (s : Env) : (loadDotenv s).fileVars = s.fileVars := rfl

theorem loadDotenv_fileExists (s : Env) : (loadDotenv s).fileExists = s.fileExists := rfl

theorem init_env_file_fileExists (s : Env) : (init_env_file s).fileExists = true := by
  unfold init_env_file
  by_cases h : s.fileExists <;> simp [h, loadDotenv]

theorem init_env_file_fileVars (s : Env) :
    (init_env_file s).fileVars = if s.fileExists then s.fileVars else [] := by
  unfold init_env_file
  by_cases h : s.fileExists <;> simp [h, loadDotenv]

theorem init_env_file_lookup (s : Env) (k : String) :
    lookupEnv (init_env_file s).osVars k
      = optOr (lookupEnv s.osVars k)
          (if s.fileExists then lookupEnv s.fileVars k else none) := by
  unfold init_env_file
  by_cases h : s.fileExists
  · simp only [h, if_pos, if_true]
    exact lookup_loadDotenv s k
  · simp only [h, if_neg, if_false, Bool.false_eq_true, lookup_loadDotenv]
    simp [lookupEnv_nil]

theorem lookup_setKeyFile (m : List (String × String)) (k v : String) :
    lookupEnv (setKeyFile m k v) k = some v := by
  induction m with
  | nil => simp [setKeyFile, lookupEnv_cons]
  | cons p rest ih =>
    rcases p with ⟨k', v'⟩
    by_cases h : (k' == k) <;> simp [setKeyFile, h, lookupEnv_cons, ih]

theorem optOr_assoc (a b c : Option String) : optOr (optOr a b) c = optOr a (optOr b c) := by
  cases a <;> simp [optOr]

/-- Persisting: set_tushare_token always writes the token under the
TUSHARE_TOKEN key of the dotenv file. -/
theorem set_tushare_token_persists (t : String) (s : Env) :
    lookupEnv (set_tushare_token t s).fileVars "TUSHARE_TOKEN" = some t := by
  show lookupEnv (setKeyFile (init_env_file s).fileVars "TUSHARE_TOKEN" t) "TUSHARE_TOKEN" = some t
  exact lookup_setKeyFile _ _ _

/-- What get_tushare_token returns right after set_tushare_token t:
the pre-existing process-environment binding wins (load_dotenv does
not override), then the pre-existing file binding (loaded into the
process environment by the init call inside set_tushare_token), and
only in their absence the new token t. -/
theorem token_roundtrip_char (t : String) (s : Env) :
    (get_tushare_token (set_tushare_token t s)).1
      = optOr (lookupEnv s.osVars "TUSHARE_TOKEN")
          (optOr (if s.fileExists then lookupEnv s.fileVars "TUSHARE_TOKEN" else none)
            (some t)) := by
  show lookupEnv (init_env_file (set_tushare_token t s)).osVars "TUSHARE_TOKEN" = _
  rw [init_env_file_lookup]
  have h1 : (set_tushare_token t s).fileExists = true := by
    show (init_env_file s).fileExists = true
    exact init_env_file_fileExists s
  have h2 : lookupEnv (set_tushare_token t s).fileVars "TUSHARE_TOKEN" = some t :=
    set_tushare_token_persists t s
  have h3 : (set_tushare_token t s).osVars = (init_env_file s).osVars := rfl
  rw [h1, if_pos rfl, h2, h3, init_env_file_lookup, optOr_assoc]

/-! ## Frame lemmas: every query tool's only state effect is init_env_file -/

theorem search_stocks_intraday_env (s : Env) (kw : String)
    (resp : Except String (List StockRow)) :
    (search_stocks_intraday s kw resp).env = init_env_file s := by
  unfold search_stocks_intraday
  dsimp only
  repeat' split
  all_goals rfl

theorem search_stocks_server_env (s : Env) (kw : String)
    (resp : Except String (List StockRow)) :
    (search_stocks_server s kw resp).env = init_env_file s := by
  unfold search_stocks_server
  dsimp only
  repeat' split
  all_goals rfl

theorem get_daily_prices_intraday_env (s : Env) (ts : String) (td sd ed : Option String)
    (o : DailyReq → Except String (List DailyRow))
    (n : String → Except Unit (List StockRow)) :
    (get_daily_prices_intraday s ts td sd ed o n).env = init_env_file s := by
  unfold get_daily_prices_intraday
  dsimp only
  repeat' split
  all_goals rfl

theorem get_daily_prices_server_env (s : Env) (ts : String) (td sd ed : Option String)
    (o : DailyReq → Except String (List DailyRow))
    (n : String → Except Unit (List StockRow)) :
    (get_daily_prices_server s ts td sd ed o n).env = init_env_file s := by
  unfold get_daily_prices_server
  dsimp only
  repeat' split
  all_goals rfl

theorem get_start_date_intraday_env (s : Env) (e : String) (d : ℤ)
    (o : CalReq → Except String (List String)) :
    (get_start_date_intraday s e d o).env = init_env_file s := by
  unfold get_start_date_intraday
  dsimp only
  repeat' split
  all_goals rfl

theorem get_start_date_server_env (s : Env) (e : String) (d : ℤ)
    (o : CalReq → Except String (List String)) :
    (get_start_date_server s e d o).env = init_env_file s := by
  unfold get_start_date_server
  dsimp only
  repeat' split
  all_goals rfl

theorem get_trade_calendar_env (s : Env) (ex : String) (sd ed : Option String)
    (o : CalQuery → Except String (List CalRow)) :
    (get_trade_calendar s ex sd ed o).env = init_env_file s := by
  unfold get_trade_calendar
  dsimp only
  repeat' split
  all_goals rfl

theorem get_weekly_prices_env (s : Env) (pr : String) (ts td sd ed : Option String)
    (o : PeriodReq → Except String (List PeriodRow)) :
    (get_weekly_prices s pr ts td sd ed o).env = init_env_file s := by
  unfold get_weekly_prices
  dsimp only
  repeat' split
  all_goals rfl

theorem get_monthly_prices_env (s : Env) (pr : String) (ts td sd ed : Option String)
    (o : PeriodReq → Except String (List PeriodRow)) :
    (get_monthly_prices s pr ts td sd ed o).env = init_env_file s := by
  unfold get_monthly_prices
  dsimp only
  repeat' split
  all_goals rfl

/-! ## Remote-call counts per tool -/

theorem search_stocks_intraday_calls (s : Env) (kw : String)
    (resp : Except String (List StockRow)) :
    (search_stocks_intraday s kw resp).calls
      = if pyTruthyO (get_tushare_token s).1 then 1 else 0 := by
  unfold search_stocks_intraday
  dsimp only
  by_cases h : pyTruthyO (get_tushare_token s).1 <;>
    simp only [h, Bool.not_true, Bool.not_false, if_true, if_false,
      Bool.false_eq_true, Bool.true_eq_false]
  all_goals (repeat' split)
  all_goals rfl

theorem search_stocks_server_calls (s : Env) (kw : String)
    (resp : Except String (List StockRow)) :
    (search_stocks_server s kw resp).calls
      = if pyTruthyO (get_tushare_token s).1 then 1 else 0 := by
  unfold search_stocks_server
  dsimp only
  by_cases h : pyTruthyO (get_tushare_token s).1 <;>
    simp only [h, Bool.not_true, Bool.not_false, if_true, if_false,
      Bool.false_eq_true, Bool.true_eq_false]
  all_goals (repeat' split)
  all_goals rfl

theorem get_daily_prices_body_calls (ts : String) (td sd ed : Option String)
    (o : DailyReq → Except String (List DailyRow))
    (n : String → Except Unit (List StockRow)) :
    (get_daily_prices_body ts td sd ed o n).2
      = match o (dailyRequest ts td sd ed) with
        | .error _ => 1
        | .ok [] => 1
        | .ok (_ :: _) => 2 := by
  unfold get_daily_prices_body
  cases ho : o (dailyRequest ts td sd ed) with
  | error e => simp [ho]
  | ok df =>
    cases df with
    | nil => by_cases h3 : pyTruthyO td <;> simp [ho, h3]
    | cons r rest => simp [ho]

theorem get_daily_prices_intraday_calls (s : Env) (ts : String) (td sd ed : Option String)
    (o : DailyReq → Except String (List DailyRow))
    (n : String → Except Unit (List StockRow)) :
    (get_daily_prices_intraday s ts td sd ed o n).calls
      = if !(pyTruthyO (get_tushare_token s).1) then 0
        else if !(validDaily td sd ed) then 0
        else (get_daily_prices_body ts td sd ed o n).2 := by
  unfold get_daily_prices_intraday
  dsimp only
  by_cases h1 : pyTruthyO (get_tushare_token s).1 <;>
    simp only [h1, Bool.not_true, Bool.not_false, if_true, if_false,
      Bool.false_eq_true, Bool.true_eq_false]
  by_cases h2 : validDaily td sd ed <;>
    simp only [h2, Bool.not_true, Bool.not_false, if_true, if_false,
      Bool.false_eq_true, Bool.true_eq_false]
  cases hb : get_daily_prices_body ts td sd ed o n with
  | mk fst snd => cases fst <;> simp [hb]

theorem get_daily_prices_server_calls (s : Env) (ts : String) (td sd ed : Option String)
    (o : DailyReq → Except String (List DailyRow))
    (n : String → Except Unit (List StockRow)) :
    (get_daily_prices_server s ts td sd ed o n).calls
      = if !(pyTruthyO (get_tushare_token s).1) then 0
        else if !(validDaily td sd ed) then 0
        else (get_daily_prices_body ts td sd ed o n).2 := by
  unfold get_daily_prices_server
  dsimp only
  by_cases h1 : pyTruthyO (get_tushare_token s).1 <;>
    simp only [h1, Bool.not_true, Bool.not_false, if_true, if_false,
      Bool.false_eq_true, Bool.true_eq_false]
  by_cases h2 : validDaily td sd ed <;>
    simp only [h2, Bool.not_true, Bool.not_false, if_true, if_false,
      Bool.false_eq_true, Bool.true_eq_false]
  cases hb : get_daily_prices_body ts td sd ed o n with
  | mk fst snd => cases fst <;> simp [hb]

theorem get_start_date_body_calls (e : String) (d : ℤ)
    (o : CalReq → Except String (List String)) :
    (get_start_date_body e d o).2
      = if (startRequest e d).isSome then 1 else 0 := by
  unfold get_start_date_body startRequest
  cases hp : parseYmd e with
  | none => simp [hp]
  | some dt =>
    cases hf : fmtDaysOpt (daysOfYmd dt - 2 * d) with
    | none => simp [hp, hf]
    | some sEst =>
      cases ho : o ⟨sEst, e, "1"⟩ with
      | error ex => simp [hp, hf, ho]
      | ok df =>
        simp only [hp, hf, ho, Option.isSome_some, if_true]
        repeat' split
        all_goals rfl

theorem get_start_date_intraday_calls (s : Env) (e : String) (d : ℤ)
    (o : CalReq → Except String (List String)) :
    (get_start_date_intraday s e d o).calls
      = if !(pyTruthyO (get_tushare_token s).1) then 0
        else (get_start_date_body e d o).2 := by
  unfold get_start_date_intraday
  dsimp only
  by_cases h : pyTruthyO (get_tushare_token s).1 <;>
    simp only [h, Bool.not_true, Bool.not_false, if_true, if_false,
      Bool.false_eq_true, Bool.true_eq_false]
  cases hb : get_start_date_body e d o with
  | mk fst snd => cases fst <;> simp [hb]

theorem get_start_date_server_calls (s : Env) (e : String) (d : ℤ)
    (o : CalReq → Except String (List String)) :
    (get_start_date_server s e d o).calls
      = if !(pyTruthyO (get_tushare_token s).1) then 0
        else (get_start_date_body e d o).2 := by
  unfold get_start_date_server
  dsimp only
  by_cases h : pyTruthyO (get_tushare_token s).1 <;>
    simp only [h, Bool.not_true, Bool.not_false, if_true, if_false,
      Bool.false_eq_true, Bool.true_eq_false]
  cases hb : get_start_date_body e d o with
  | mk fst snd => cases fst <;> simp [hb]

theorem get_trade_calendar_body_calls (ex : String) (sd ed : Option String)
    (o : CalQuery → Except String (List CalRow)) :
    (get_trade_calendar_body ex sd ed o).2 = 1 := by
  unfold get_trade_calendar_body
  cases ho : o ⟨ex, sd, ed⟩ with
  | error e => simp [ho]
  | ok df =>
    simp only [ho]
    repeat' split
    all_goals rfl

theorem get_trade_calendar_calls (s : Env) (ex : String) (sd ed : Option String)
    (o : CalQuery → Except String (List CalRow)) :
    (get_trade_calendar s ex sd ed o).calls
      = if pyTruthyO (get_tushare_token s).1 then 1 else 0 := by
  unfold get_trade_calendar
  dsimp only
  by_cases h : pyTruthyO (get_tushare_token s).1 <;>
    simp only [h, Bool.not_true, Bool.not_false, if_true, if_false,
      Bool.false_eq_true, Bool.true_eq_false]
  cases hb : get_trade_calendar_body ex sd ed o with
  | mk fst snd =>
    have hs : snd = 1 := by
      have := get_trade_calendar_body_calls ex sd ed o
      rw [hb] at this
      exact this
    cases fst <;> simp [hb, hs]

theorem periodToolBody_calls (kind : String) (fl : PeriodRow → List String)
    (pr : String) (ts td sd ed : Option String)
    (o : PeriodReq → Except String (List PeriodRow)) :
    (periodToolBody kind fl pr ts td sd ed o).2
      = if !(pyTruthyO ts) && !(pyTruthyO td) then 0 else 1 := by
  unfold periodToolBody
  by_cases hp : (!(pyTruthyO ts) && !(pyTruthyO td)) = true <;>
    simp only [hp, if_true, if_false, Bool.false_eq_true, Bool.true_eq_false]
  cases ho : o (periodReq ts td sd ed) with
  | error e => simp [ho]
  | ok df =>
    simp only [ho]
    repeat' split
    all_goals rfl

theorem get_weekly_prices_calls (s : Env) (pr : String) (ts td sd ed : Option String)
    (o : PeriodReq → Except String (List PeriodRow)) :
    (get_weekly_prices s pr ts td sd ed o).calls
      = if !(pyTruthyO (get_tushare_token s).1) then 0
        else (periodToolBody "周线" weeklyFieldLines pr ts td sd ed o).2 := by
  unfold get_weekly_prices
  dsimp only
  by_cases h : pyTruthyO (get_tushare_token s).1 <;>
    simp only [h, Bool.not_true, Bool.not_false, if_true, if_false,
      Bool.false_eq_true, Bool.true_eq_false]
  cases hb : periodToolBody "周线" weeklyFieldLines pr ts td sd ed o with
  | mk fst snd => cases fst <;> simp [hb]

theorem get_monthly_prices_calls (s : Env) (pr : String) (ts td sd ed : Option String)
    (o : PeriodReq → Except String (List PeriodRow)) :
    (get_monthly_prices s pr ts td sd ed o).calls
      = if !(pyTruthyO (get_tushare_token s).1) then 0
        else (periodToolBody "月线" monthlyFieldLines pr ts td sd ed o).2 := by
  unfold get_monthly_prices
  dsimp only
  by_cases h : pyTruthyO (get_tushare_token s).1 <;>
    simp only [h, Bool.not_true, Bool.not_false, if_true, if_false,
      Bool.false_eq_true, Bool.true_eq_false]
  cases hb : periodToolBody "月线" monthlyFieldLines pr ts td sd ed o with
  | mk fst snd => cases fst <;> simp [hb]

theorem get_pe_percentile_calls (sc : String) (resp : Except String (List PERow)) :
    (get_pe_percentile sc resp).2
      = if (normalize_stock_code sc).isSome then 1 else 0 := by
  unfold get_pe_percentile get_pe_percentile_body
  cases hn : normalize_stock_code sc with
  | none => simp [hn]
  | some c =>
    cases resp with
    | error e => simp [hn]
    | ok l =>
      cases l with
      | nil => simp [hn]
      | cons r rest => cases hq : r.pe_percentile_3y <;> simp [hn, hq]

/-! ## Behavioural agreement of the duplicated tools (server.py vs intraday.py) -/

theorem daily_copies_agree (s : Env) (ts : String) (td sd ed : Option String)
    (o : DailyReq → Except String (List DailyRow))
    (n : String → Except Unit (List StockRow)) (m : String)
    (h : (get_daily_prices_body ts td sd ed o n).1 = Except.ok m) :
    get_daily_prices_intraday s ts td sd ed o n
      = get_daily_prices_server s ts td sd ed o n := by
  unfold get_daily_prices_intraday get_daily_prices_server
  dsimp only
  by_cases h1 : pyTruthyO (get_tushare_token s).1 <;>
    simp only [h1, Bool.not_true, Bool.not_false, if_true, if_false,
      Bool.false_eq_true, Bool.true_eq_false]
  by_cases h2 : validDaily td sd ed <;>
    simp only [h2, Bool.not_true, Bool.not_false, if_true, if_false,
      Bool.false_eq_true, Bool.true_eq_false]
  cases hb : get_daily_prices_body ts td sd ed o n with
  | mk fst snd =>
    rw [hb] at h
    cases fst with
    | ok v => rfl
    | error e => simp at h

theorem start_copies_agree (s : Env) (e : String) (d : ℤ)
    (o : CalReq → Except String (List String)) (m : String)
    (h : (get_start_date_body e d o).1 = Except.ok m) :
    get_start_date_intraday s e d o = get_start_date_server s e d o := by
  unfold get_start_date_intraday get_start_date_server
  dsimp only
  by_cases h1 : pyTruthyO (get_tushare_token s).1 <;>
    simp only [h1, Bool.not_true, Bool.not_false, if_true, if_false,
      Bool.false_eq_true, Bool.true_eq_false]
  cases hb : get_start_date_body e d o with
  | mk fst snd =>
    rw [hb] at h
    cases fst with
    | ok v => rfl
    | error ex => simp at h

theorem search_copies_lines (s : Env) (kw : String) (rows : List StockRow)
    (h1 : pyTruthyO (get_tushare_token s).1 = true)
    (h2 : (rows.filter (searchMask kw)).isEmpty = false) :
    (search_stocks_intraday s kw (Except.ok rows)).out
      = joinSep "\n" ((rows.filter (searchMask kw)).map searchLine)
    ∧ (search_stocks_server s kw (Except.ok rows)).out
      = joinSep "\\n" ((rows.filter (searchMask kw)).map searchLine) := by
  unfold search_stocks_intraday search_stocks_server
  dsimp only
  simp [h1, h2]

/-! ## Sorting preserves length (used for get_start_date_for_n_days) -/

theorem insertDescBy_length {α : Type} (key : α → String) (x : α) (l : List α) :
    (insertDescBy key x l).length = l.length + 1 := by
  induction l with
  | nil => rfl
  | cons y ys ih =>
    unfold insertDescBy
    split
    · rfl
    · simp [ih]

theorem sortDescBy_length {α : Type} (key : α → String) (l : List α) :
    (sortDescBy key l).length = l.length := by
  induction l with
  | nil => rfl
  | cons y ys ih => simp [sortDescBy, insertDescBy_length, ih]

/-- Successful run of the get_start_date_for_n_days try-block: the
returned day is the entry at index days_ago - 1 of the
descending-sorted trading-day list. -/
theorem start_body_success (e : String) (d : ℤ)
    (o : CalReq → Except String (List String))
    (dt : Nat × Nat × Nat) (sEst : String) (df : List String)
    (hp : parseYmd e = some dt)
    (hf : fmtDaysOpt (daysOfYmd dt - 2 * d) = some sEst)
    (ho : o ⟨sEst, e, "1"⟩ = Except.ok df)
    (h1 : 1 ≤ d) (h2 : d ≤ (df.length : ℤ)) :
    ∃ x, (sortDescBy (fun z => z) df).get? (d - 1).toNat = some x ∧
      (get_start_date_body e d o).1
        = Except.ok ("查询成功。对于结束日期 " ++ e ++ "，往前 " ++ toString d ++
            " 个交易日的开始日期是: " ++ x) := by
  have hne : df.isEmpty = false := by
    cases df with
    | nil => simp at h2; omega
    | cons a l => rfl
  have hlen : ¬ ((df.length : ℤ) < d) := by omega
  have hlen2 : ¬ ((sortDescBy (fun z => z) df).length : ℤ) < d := by
    rw [sortDescBy_length]; omega
  have hidx : (d - 1).toNat < (sortDescBy (fun z => z) df).length := by
    rw [sortDescBy_length]; omega
  unfold get_start_date_body
  rw [hp]
  dsimp only
  rw [hf]
  dsimp only
  rw [ho]
  dsimp only
  rw [hne]
  rw [if_neg (by simpa using hlen), if_neg hlen2]
  obtain ⟨x, hx⟩ : ∃ x, (sortDescBy (fun z => z) df).get? (d - 1).toNat = some x :=
    ⟨_, List.get?_eq_get hidx⟩
  unfold pyIndex
  dsimp only
  rw [if_pos (by omega : (0 : ℤ) ≤ d - 1), if_pos (by omega : (0 : ℤ) ≤ d - 1), hx]
  exact ⟨x, rfl, rfl⟩

/-! ## The date-validation error is returned exactly on invalid date arguments -/

/-- First character of every message the get_daily_prices try-block can
return normally: the empty-result messages start with 未 and the
formatted listing starts with the header dashes. -/
theorem daily_body_ok_firstChar (ts : String) (td sd ed : Option String)
    (o : DailyReq → Except String (List DailyRow))
    (n : String → Except Unit (List StockRow)) (m : String)
    (h : (get_daily_prices_body ts td sd ed o n).1 = Except.ok m) :
    firstChar m = some '未' ∨ firstChar m = some '-' := by
  unfold get_daily_prices_body at h
  cases ho : o (dailyRequest ts td sd ed) with
  | error e => rw [ho] at h; simp at h
  | ok df =>
    rw [ho] at h
    cases df with
    | nil =>
      by_cases h3 : pyTruthyO td
      · simp only [List.isEmpty_nil, if_true, h3, Bool.false_eq_true, Bool.true_eq_false,
          Except.ok.injEq] at h
        subst h
        left
        repeat (apply fc_append)
        decide
      · simp only [List.isEmpty_nil, if_true, if_false, h3, Bool.false_eq_true,
          Bool.true_eq_false, Except.ok.injEq] at h
        subst h
        left
        repeat (apply fc_append)
        decide
    | cons r rest =>
      simp only [List.isEmpty_cons, Bool.false_eq_true, if_false, Except.ok.injEq] at h
      subst h
      right
      by_cases h3 : pyTruthyO td
      · simp only [h3, if_true, Bool.false_eq_true, Bool.true_eq_false]
        apply fc_joinSep
        repeat (apply fc_append)
        decide
      · simp only [h3, if_false, Bool.false_eq_true, Bool.true_eq_false]
        apply fc_joinSep
        repeat (apply fc_append)
        decide

theorem daily_valid_out_intraday (s : Env) (ts : String) (td sd ed : Option String)
    (o : DailyReq → Except String (List DailyRow))
    (n : String → Except Unit (List StockRow))
    (h1 : pyTruthyO (get_tushare_token s).1 = true)
    (h2 : validDaily td sd ed = true) :
    (get_daily_prices_intraday s ts td sd ed o n).out ≠ dateErrMsg := by
  unfold get_daily_prices_intraday
  dsimp only
  simp only [h1, h2, Bool.not_true, if_false, Bool.false_eq_true, Bool.true_eq_false]
  cases hb : get_daily_prices_body ts td sd ed o n with
  | mk fst snd =>
    cases fst with
    | ok v =>
      dsimp only
      have hv := daily_body_ok_firstChar ts td sd ed o n v (by rw [hb])
      apply ne_of_firstChar
      cases hv with
      | inl hl => rw [hl]; decide
      | inr hr => rw [hr]; decide
    | error e =>
      dsimp only
      apply ne_of_firstChar
      rw [fc_append _ _ '获' (by decide)]
      decide

theorem daily_valid_out_server (s : Env) (ts : String) (td sd ed : Option String)
    (o : DailyReq → Except String (List DailyRow))
    (n : String → Except Unit (List StockRow))
    (h1 : pyTruthyO (get_tushare_token s).1 = true)
    (h2 : validDaily td sd ed = true) :
    (get_daily_prices_server s ts td sd ed o n).out ≠ dateErrMsg := by
  unfold get_daily_prices_server
  dsimp only
  simp only [h1, h2, Bool.not_true, if_false, Bool.false_eq_true, Bool.true_eq_false]
  cases hb : get_daily_prices_body ts td sd ed o n with
  | mk fst snd =>
    cases fst with
    | ok v =>
      dsimp only
      have hv := daily_body_ok_firstChar ts td sd ed o n v (by rw [hb])
      apply ne_of_firstChar
      cases hv with
      | inl hl => rw [hl]; decide
      | inr hr => rw [hr]; decide
    | error e =>
      dsimp only
      apply ne_of_firstChar
      rw [fc_append _ _ '获' (by decide)]
      decide

theorem daily_invalid_out_intraday (s : Env) (ts : String) (td sd ed : Option String)
    (o : DailyReq → Except String (List DailyRow))
    (n : String → Except Unit (List StockRow))
    (h1 : pyTruthyO (get_tushare_token s).1 = true)
    (h2 : validDaily td sd ed = false) :
    (get_daily_prices_intraday s ts td sd ed o n).out = dateErrMsg := by
  unfold get_daily_prices_intraday
  dsimp only
  simp [h1, h2]

theorem daily_invalid_out_server (s : Env) (ts : String) (td sd ed : Option String)
    (o : DailyReq → Except String (List DailyRow))
    (n : String → Except Unit (List StockRow))
    (h1 : pyTruthyO (get_tushare_token s).1 = true)
    (h2 : validDaily td sd ed = false) :
    (get_daily_prices_server s ts td sd ed o n).out = dateErrMsg := by
  unfold get_daily_prices_server
  dsimp only
  simp [h1, h2]

/-- The validation condition, phrased the way the claim states it:
a non-empty trade_date with both range bounds absent, or a non-empty
start_date and end_date with trade_date absent (a supplied empty
string counts as absent, as Python truthiness makes it). -/
def specValidDailyArgs (td sd ed : Option String) : Bool :=
  (pyTruthyO td && !pyTruthyO sd && !pyTruthyO ed) ||
  (pyTruthyO sd && pyTruthyO ed && !pyTruthyO td)

theorem validDaily_eq_spec (td sd ed : Option String) :
    validDaily td sd ed = specValidDailyArgs td sd ed := by
  unfold validDaily specValidDailyArgs
  cases htd : pyTruthyO td <;> cases hsd : pyTruthyO sd <;> cases hed : pyTruthyO ed <;>
    simp [htd, hsd, hed]


/-! ## Characterisation of normalize_stock_code and get_pe_percentile -/

/-- The shape the claim describes for a well-formed code: the prefix
sh or sz followed by exactly six decimal digits. -/
def SpecShSz (t : String) : Prop :=
  ∃ ds : List Char, ds.length = 6 ∧ (∀ ch ∈ ds, ch.isDigit) ∧
    (t.data = 's' :: 'h' :: ds ∨ t.data = 's' :: 'z' :: ds)

theorem normalize_some_iff (s : String) :
    normalize_stock_code s = some (toLowerStr (pyStrip s)) ↔
      SpecShSz (toLowerStr (pyStrip s)) := by
  unfold normalize_stock_code
  dsimp only
  cases hd : (toLowerStr (pyStrip s)).data with
  | nil => simp [SpecShSz, hd]
  | cons a tl =>
    cases tl with
    | nil => simp [SpecShSz, hd]
    | cons x rest =>
      dsimp only
      by_cases hB : (a == 's' && (x == 'h' || x == 'z') && rest.length == 6 &&
          rest.all Char.isDigit) = true
      · rw [if_pos hB]
        simp only [Bool.and_eq_true, Bool.or_eq_true, beq_iff_eq,
          List.all_eq_true] at hB
        obtain ⟨⟨⟨ha, hx⟩, hlen⟩, hdig⟩ := hB
        subst ha
        simp only [true_iff]
        refine ⟨rest, by simpa using hlen, fun ch hch => by simpa using hdig ch hch, ?_⟩
        rcases hx with hx | hx <;> subst hx
        · left; exact hd
        · right; exact hd
      · rw [if_neg hB]
        constructor
        · intro hc; exact absurd hc (by simp)
        · intro hspec
          rcases hspec with ⟨ds, hl, hdg, hcase⟩
          exfalso
          apply hB
          rcases hcase with hcase | hcase <;>
            rw [hd] at hcase <;>
            injection hcase with h1 h2 <;>
            injection h2 with h2 h3 <;>
            subst h1 <;> subst h2 <;> subst h3 <;>
            simp [hl, List.all_eq_true] <;>
            intro ch hch <;> simpa using hdg ch hch

theorem normalize_none_or (s : String) :
    normalize_stock_code s = none ∨
      normalize_stock_code s = some (toLowerStr (pyStrip s)) := by
  unfold normalize_stock_code
  dsimp only
  cases hd : (toLowerStr (pyStrip s)).data with
  | nil => left; rfl
  | cons a tl =>
    cases tl with
    | nil => left; rfl
    | cons x rest =>
      dsimp only
      by_cases hB : (a == 's' && (x == 'h' || x == 'z') && rest.length == 6 &&
          rest.all Char.isDigit) = true
      · right; rw [if_pos hB]
      · left; rw [if_neg hB]

/-- Every run of the wrapped get_pe_percentile produces one of the five
message shapes; exceptions are converted by the decorator. -/
theorem pe_outcomes (sc : String) (resp : Except String (List PERow)) :
    (∃ e, resp = Except.error e ∧ (get_pe_percentile sc resp).1 = "查询失败: " ++ e)
    ∨ (get_pe_percentile sc resp).1 = peFmtErrMsg sc
    ∨ (get_pe_percentile sc resp).1 = "未找到股票：" ++ sc
    ∨ (get_pe_percentile sc resp).1 = "股票 " ++ sc ++ " 暂无PE分位数据"
    ∨ ∃ q, (get_pe_percentile sc resp).1
        = "股票 " ++ sc ++ " 的近三年PE分位：" ++ pyFormat q 4 false := by
  unfold get_pe_percentile get_pe_percentile_body
  cases hn : normalize_stock_code sc with
  | none => right; left; simp [hn]
  | some c =>
    cases resp with
    | error e => left; exact ⟨e, rfl, by simp [hn]⟩
    | ok l =>
      cases l with
      | nil => right; right; left; simp [hn]
      | cons r rest =>
        cases hq : r.pe_percentile_3y with
        | none => right; right; right; left; simp [hn, hq]
        | some q => right; right; right; right; exact ⟨q, by simp [hn, hq]⟩

/-- The format-error message and suppressed query happen exactly on the
inputs normalize_stock_code rejects. -/
theorem pe_fmtErr_cases (sc : String) (resp : Except String (List PERow)) :
    ((normalize_stock_code sc).isSome = false
      ∧ (get_pe_percentile sc resp).1 = peFmtErrMsg sc
      ∧ (get_pe_percentile sc resp).2 = 0)
    ∨ ((normalize_stock_code sc).isSome = true
      ∧ (get_pe_percentile sc resp).2 = 1) := by
  cases hn : normalize_stock_code sc with
  | none =>
    left
    refine ⟨by simp [hn], ?_, ?_⟩
    · unfold get_pe_percentile get_pe_percentile_body
      simp [hn]
    · rw [get_pe_percentile_calls, hn]
      rfl
  | some c =>
    right
    refine ⟨by simp [hn], ?_⟩
    rw [get_pe_percentile_calls, hn]
    rfl

/-! ## Concrete states and oracles used by counterexamples and witnesses -/

def env0 : Env := ⟨false, [], []⟩

def envTok : Env := ⟨true, [("TUSHARE_TOKEN", "demo-token")], []⟩

def envTok7 : Env := ⟨true, [("TUSHARE_TOKEN", "mytoken")], []⟩

/-- A state whose process environment already binds TUSHARE_TOKEN
(e.g. because a token was loaded at import time). -/
def envShadow : Env := ⟨true, [], [("TUSHARE_TOKEN", "old-token")]⟩

def stockRows2 : List StockRow :=
  [⟨"000001.SZ", "平安银行"⟩, ⟨"000002.SZ", "万科A"⟩]

def dailyRow1 : DailyRow :=
  ⟨"20250227", .num 10, .num 11, .num 9, .num (21 / 2 : ℚ), .num 1000, .missing⟩

def dailyOracle1 : DailyReq → Except String (List DailyRow) := fun _ => .ok [dailyRow1]

def dailyOracleEmpty : DailyReq → Except String (List DailyRow) := fun _ => .ok []

def nameOracle1 : String → Except Unit (List StockRow) := fun _ => .error ()

def calOracle3 : CalReq → Except String (List String) :=
  fun _ => .ok ["20240108", "20240109", "20240110"]

theorem check_token_status_ok (s : Env) (r : Except String (List StockRow)) :
    ∃ m, (check_token_status s r).1 = PyResult.ok m := by
  unfold check_token_status
  dsimp only
  by_cases h : pyTruthyO (get_tushare_token s).1 <;>
    simp only [h, Bool.not_true, Bool.not_false, if_true, if_false,
      Bool.false_eq_true, Bool.true_eq_false]
  · cases r with
    | error e => exact ⟨_, rfl⟩
    | ok l =>
      cases l with
      | nil => exact ⟨_, rfl⟩
      | cons a t => exact ⟨_, rfl⟩
  · exact ⟨_, rfl⟩

/-! ## Claim C5 -/

/-- C5 (counterexample): the claim says every server process wires a
GET handshake at the SSE base path PLUS a mounted POST messages
endpoint, the same way in each file; src/intraday.py mounts no
messages endpoint at all (its only SSE registration is the GET /sse
per-request handler). -/
theorem c5_counterexample : hasMessagesMount intraday_routes = false := by decide

/-- C5 (amended): server.py and refer.py wire MCP-over-SSE
identically (GET handshake at /sse plus the POST messages mount at
/sse/messages/); intraday.py instead registers a single GET /sse
route whose handler builds a transport per request and has no
messages mount. -/
theorem c5_sse_wiring :
    sseRoutes server_routes
      = [⟨"GET", "/sse", .sseHandshake⟩, ⟨"MOUNT", "/sse/messages/", .messagesMount⟩]
    ∧ sseRoutes refer_routes
      = [⟨"GET", "/sse", .sseHandshake⟩, ⟨"MOUNT", "/sse/messages/", .messagesMount⟩]
    ∧ sseRoutes intraday_routes = [⟨"GET", "/sse", .ssePerRequest⟩]
    ∧ hasMessagesMount server_routes = true
    ∧ hasMessagesMount refer_routes = true
    ∧ hasMessagesMount intraday_routes = false := by decide

/-! ## Claim C6 -/

/-- C6 (counterexample): the claim says evaluating the affected code
paths raises NameError; but every execution path of
check_token_status (the function holding the orphaned search_index
body) returns normally before the orphaned block, as this concrete
run shows. -/
theorem c6_counterexample :
    (check_token_status envTok7 (Except.ok [⟨"600000.SH", "浦发银行"⟩])).1
      = PyResult.ok "Tushare API Token状态正常，可以使用。Token: ****oken" := by decide

/-- C6 (amended): the copy-paste drift is real — the orphaned
search_index body spliced into check_token_status reads the unbound
names token_value, index_name, market, publisher, category and would
raise NameError('token_value') if ever reached — but it is
unreachable (check_token_status always returns a normal string
first), and the identifiers g.pro_api and mcp_tool named by the spec
do not occur in the three source files. -/
theorem c6_drift :
    (∀ (s : Env) (r : Except String (List StockRow)),
      ∃ m, (check_token_status s r).1 = PyResult.ok m)
    ∧ orphaned_search_index_block = PyResult.nameError "token_value"
    ∧ orphan_free_identifiers.contains "g.pro_api" = false
    ∧ orphan_free_identifiers.contains "mcp_tool" = false :=
  ⟨check_token_status_ok, rfl, by decide, by decide⟩

/-! ## Claim C7 -/

/-- C7 (counterexample): the claim says every query-tool invocation
leaves all persistent state unchanged; but when the dotenv file does
not exist yet, the init_env_file call inside get_tushare_token
creates it (an empty file and its directory), so even a token-less
search_stocks run changes the persistent state. -/
theorem c7_counterexample :
    (search_stocks_server env0 "a" (Except.error "boom")).env ≠ env0 := by decide

/-- C7 (amended): the query tools never change the dotenv file's
key-value bindings — their only persistent effect is that
init_env_file creates the missing empty env file (fileExists becomes
true, with no bindings) — and only set_tushare_token writes the
TUSHARE_TOKEN binding. -/
theorem c7_frame :
    (∀ s : Env, (init_env_file s).fileExists = true
      ∧ (init_env_file s).fileVars = (if s.fileExists then s.fileVars else []))
    ∧ (∀ (s : Env) (kw : String) (resp : Except String (List StockRow)),
        (search_stocks_intraday s kw resp).env = init_env_file s)
    ∧ (∀ (s : Env) (kw : String) (resp : Except String (List StockRow)),
        (search_stocks_server s kw resp).env = init_env_file s)
    ∧ (∀ (s : Env) (ts : String) (td sd ed : Option String)
        (o : DailyReq → Except String (List DailyRow))
        (n : String → Except Unit (List StockRow)),
        (get_daily_prices_intraday s ts td sd ed o n).env = init_env_file s)
    ∧ (∀ (s : Env) (ts : String) (td sd ed : Option String)
        (o : DailyReq → Except String (List DailyRow))
        (n : String → Except Unit (List StockRow)),
        (get_daily_prices_server s ts td sd ed o n).env = init_env_file s)
    ∧ (∀ (s : Env) (e : String) (d : ℤ) (o : CalReq → Except String (List String)),
        (get_start_date_intraday s e d o).env = init_env_file s)
    ∧ (∀ (s : Env) (e : String) (d : ℤ) (o : CalReq → Except String (List String)),
        (get_start_date_server s e d o).env = init_env_file s)
    ∧ (∀ (s : Env) (ex : String) (sd ed : Option String)
        (o : CalQuery → Except String (List CalRow)),
        (get_trade_calendar s ex sd ed o).env = init_env_file s)
    ∧ (∀ (s : Env) (pr : String) (ts td sd ed : Option String)
        (o : PeriodReq → Except String (List PeriodRow)),
        (get_weekly_prices s pr ts td sd ed o).env = init_env_file s)
    ∧ (∀ (s : Env) (pr : String) (ts td sd ed : Option String)
        (o : PeriodReq → Except String (List PeriodRow)),
        (get_monthly_prices s pr ts td sd ed o).env = init_env_file s)
    ∧ (∀ (t : String) (s : Env),
        lookupEnv (set_tushare_token t s).fileVars "TUSHARE_TOKEN" = some t) :=
  ⟨fun s => ⟨init_env_file_fileExists s, init_env_file_fileVars s⟩,
   search_stocks_intraday_env, search_stocks_server_env,
   get_daily_prices_intraday_env, get_daily_prices_server_env,
   get_start_date_intraday_env, get_start_date_server_env,
   get_trade_calendar_env, get_weekly_prices_env, get_monthly_prices_env,
   set_tushare_token_persists⟩

/-! ## Claim C1 -/

/-- C1 (counterexample): the claim says no invocation issues more than
one remote query; but a get_daily_prices run with a configured token
and a non-empty result issues two — the pro.daily call plus the
stock_basic call made by _get_stock_name to fetch the stock name. -/
theorem c1_counterexample :
    ¬ ((get_daily_prices_server envTok "600126.SH" (some "20250227") none none
        dailyOracle1 nameOracle1).calls ≤ 1) := by decide

/-- C1 (amended): with a configured token each query tool issues
exactly one query to its primary remote source per invocation —
except get_daily_prices, which issues one additional stock_basic call
to fetch the stock name whenever rows were returned; argument
validation failures (and, for get_start_date_for_n_days, exceptions
thrown before the call) issue none.  The weekly/monthly name lookups
pass their arguments swapped and die locally, so they add no remote
call. -/
theorem c1_remote_call_counts :
    (∀ (s : Env) (kw : String) (resp : Except String (List StockRow)),
      (search_stocks_intraday s kw resp).calls
        = if pyTruthyO (get_tushare_token s).1 then 1 else 0)
    ∧ (∀ (s : Env) (kw : String) (resp : Except String (List StockRow)),
      (search_stocks_server s kw resp).calls
        = if pyTruthyO (get_tushare_token s).1 then 1 else 0)
    ∧ (∀ (ts : String) (td sd ed : Option String)
        (o : DailyReq → Except String (List DailyRow))
        (n : String → Except Unit (List StockRow)),
      (get_daily_prices_body ts td sd ed o n).2
        = match o (dailyRequest ts td sd ed) with
          | .error _ => 1
          | .ok [] => 1
          | .ok (_ :: _) => 2)
    ∧ (∀ (s : Env) (ts : String) (td sd ed : Option String)
        (o : DailyReq → Except String (List DailyRow))
        (n : String → Except Unit (List StockRow)),
      (get_daily_prices_intraday s ts td sd ed o n).calls
        = if !(pyTruthyO (get_tushare_token s).1) then 0
          else if !(validDaily td sd ed) then 0
          else (get_daily_prices_body ts td sd ed o n).2)
    ∧ (∀ (s : Env) (ts : String) (td sd ed : Option String)
        (o : DailyReq → Except String (List DailyRow))
        (n : String → Except Unit (List StockRow)),
      (get_daily_prices_server s ts td sd ed o n).calls
        = if !(pyTruthyO (get_tushare_token s).1) then 0
          else if !(validDaily td sd ed) then 0
          else (get_daily_prices_body ts td sd ed o n).2)
    ∧ (∀ (e : String) (d : ℤ) (o : CalReq → Except String (List String)),
      (get_start_date_body e d o).2 = if (startRequest e d).isSome then 1 else 0)
    ∧ (∀ (s : Env) (e : String) (d : ℤ) (o : CalReq → Except String (List String)),
      (get_start_date_intraday s e d o).calls
        = if !(pyTruthyO (get_tushare_token s).1) then 0 else (get_start_date_body e d o).2)
    ∧ (∀ (s : Env) (e : String) (d : ℤ) (o : CalReq → Except String (List String)),
      (get_start_date_server s e d o).calls
        = if !(pyTruthyO (get_tushare_token s).1) then 0 else (get_start_date_body e d o).2)
    ∧ (∀ (s : Env) (ex : String) (sd ed : Option String)
        (o : CalQuery → Except String (List CalRow)),
      (get_trade_calendar s ex sd ed o).calls
        = if pyTruthyO (get_tushare_token s).1 then 1 else 0)
    ∧ (∀ (kind : String) (fl : PeriodRow → List String) (pr : String)
        (ts td sd ed : Option String) (o : PeriodReq → Except String (List PeriodRow)),
      (periodToolBody kind fl pr ts td sd ed o).2
        = if !(pyTruthyO ts) && !(pyTruthyO td) then 0 else 1)
    ∧ (∀ (s : Env) (pr : String) (ts td sd ed : Option String)
        (o : PeriodReq → Except String (List PeriodRow)),
      (get_weekly_prices s pr ts td sd ed o).calls
        = if !(pyTruthyO (get_tushare_token s).1) then 0
          else (periodToolBody "周线" weeklyFieldLines pr ts td sd ed o).2)
    ∧ (∀ (s : Env) (pr : String) (ts td sd ed : Option String)
        (o : PeriodReq → Except String (List PeriodRow)),
      (get_monthly_prices s pr ts td sd ed o).calls
        = if !(pyTruthyO (get_tushare_token s).1) then 0
          else (periodToolBody "月线" monthlyFieldLines pr ts td sd ed o).2)
    ∧ (∀ (sc : String) (resp : Except String (List PERow)),
      (get_pe_percentile sc resp).2
        = if (normalize_stock_code sc).isSome then 1 else 0) :=
  ⟨search_stocks_intraday_calls, search_stocks_server_calls,
   get_daily_prices_body_calls, get_daily_prices_intraday_calls,
   get_daily_prices_server_calls, get_start_date_body_calls,
   get_start_date_intraday_calls, get_start_date_server_calls,
   get_trade_calendar_calls, periodToolBody_calls,
   get_weekly_prices_calls, get_monthly_prices_calls,
   get_pe_percentile_calls⟩

/-! ## Claim C3 -/

/-- C3 (counterexample): set_tushare_token persists the new token in
the dotenv file, yet the subsequent get_tushare_token returns the old
value, because os.environ already binds TUSHARE_TOKEN and
load_dotenv never overrides existing environment variables. -/
theorem c3_counterexample :
    lookupEnv (set_tushare_token "new-token" envShadow).fileVars "TUSHARE_TOKEN"
      = some "new-token"
    ∧ (get_tushare_token (set_tushare_token "new-token" envShadow)).1
      ≠ some "new-token" := by decide

/-- C3 (amended): set_tushare_token t always persists t under
TUSHARE_TOKEN in the dotenv file, and the setup_tushare_token tool
invokes exactly that write for a non-empty token; but the subsequent
get_tushare_token returns t only when TUSHARE_TOKEN was not already
bound (to a different value) in the process environment or in the
pre-existing file content — the pre-existing binding wins because
load_dotenv does not override os.environ. -/
theorem c3_token_roundtrip :
    ∀ (t : String) (s : Env),
      lookupEnv (set_tushare_token t s).fileVars "TUSHARE_TOKEN" = some t
      ∧ (get_tushare_token (set_tushare_token t s)).1
          = optOr (lookupEnv s.osVars "TUSHARE_TOKEN")
              (optOr (if s.fileExists then lookupEnv s.fileVars "TUSHARE_TOKEN" else none)
                (some t))
      ∧ (∀ valResp : Except String (List StockRow),
          (setup_tushare_token t s valResp).2
            = if t == "" then s else set_tushare_token t s) := by
  intro t s
  refine ⟨set_tushare_token_persists t s, token_roundtrip_char t s, ?_⟩
  intro valResp
  unfold setup_tushare_token
  by_cases ht : (t == "") = true <;>
    simp only [ht, if_true, if_false, Bool.false_eq_true, Bool.true_eq_false]
  cases valResp with
  | error e => rfl
  | ok l =>
    cases l with
    | nil => rfl
    | cons a rest => rfl

/-! ## Claim C2 -/

/-- C2 (counterexample): the two search_stocks copies are not
behaviorally equivalent: on the same token state and the same
two-row remote response, intraday.py joins the result lines with a
newline while server.py joins them with the literal two-character
sequence backslash-n. -/
theorem c2_counterexample :
    search_stocks_intraday envTok "0" (Except.ok stockRows2)
      ≠ search_stocks_server envTok "0" (Except.ok stockRows2) := by decide

/-- C2 (amended): get_daily_prices and get_start_date_for_n_days are
behaviorally equivalent across the two files whenever the try-block
does not raise (only the except-branch failure prefixes differ);
search_stocks computes the same result lines in both files but
intraday.py joins them with a newline and server.py with a literal
backslash-n, so the copies disagree exactly on multi-line results. -/
theorem c2_copy_equivalence :
    (∀ (s : Env) (ts : String) (td sd ed : Option String)
        (o : DailyReq → Except String (List DailyRow))
        (n : String → Except Unit (List StockRow)) (m : String),
      (get_daily_prices_body ts td sd ed o n).1 = Except.ok m →
      get_daily_prices_intraday s ts td sd ed o n
        = get_daily_prices_server s ts td sd ed o n)
    ∧ (∀ (s : Env) (e : String) (d : ℤ)
        (o : CalReq → Except String (List String)) (m : String),
      (get_start_date_body e d o).1 = Except.ok m →
      get_start_date_intraday s e d o = get_start_date_server s e d o)
    ∧ (∀ (s : Env) (kw : String) (rows : List StockRow),
      pyTruthyO (get_tushare_token s).1 = true →
      (rows.filter (searchMask kw)).isEmpty = false →
      (search_stocks_intraday s kw (Except.ok rows)).out
        = joinSep "\n" ((rows.filter (searchMask kw)).map searchLine)
      ∧ (search_stocks_server s kw (Except.ok rows)).out
        = joinSep "\\n" ((rows.filter (searchMask kw)).map searchLine)) :=
  ⟨daily_copies_agree, start_copies_agree, search_copies_lines⟩

/-- C2 (witness): the equivalences instantiated at concrete runs. -/
theorem c2_witness :
    get_daily_prices_intraday envTok "600126.SH" (some "20250227") none none
        dailyOracleEmpty nameOracle1
      = get_daily_prices_server envTok "600126.SH" (some "20250227") none none
        dailyOracleEmpty nameOracle1
    ∧ get_start_date_intraday envTok "20240110" 2 calOracle3
      = get_start_date_server envTok "20240110" 2 calOracle3
    ∧ ((search_stocks_intraday envTok "0" (Except.ok stockRows2)).out
        = joinSep "\n" ((stockRows2.filter (searchMask "0")).map searchLine)
      ∧ (search_stocks_server envTok "0" (Except.ok stockRows2)).out
        = joinSep "\\n" ((stockRows2.filter (searchMask "0")).map searchLine)) := by
  refine ⟨?_, ?_, ?_⟩
  · exact c2_copy_equivalence.1 envTok "600126.SH" (some "20250227") none none
      dailyOracleEmpty nameOracle1 "未找到 600126.SH 在 20250227 的日线行情数据。" rfl
  · exact c2_copy_equivalence.2.1 envTok "20240110" 2 calOracle3
      "查询成功。对于结束日期 20240110，往前 2 个交易日的开始日期是: 20240109" (by decide)
  · exact c2_copy_equivalence.2.2 envTok "0" stockRows2 (by decide) (by decide)

/-! ## Claim C4 -/

/-- C4 (counterexample): the claim says no tool computes dates of its
own; but the trade_cal query issued by get_start_date_for_n_days uses
a start date obtained by calendar arithmetic (end_date minus
2 × days_ago days) — 20240106 here — which is not the value of any
argument (the only date argument is end_date = 20240110), and a
request parameter cannot come from data fetched by the very call it
parameterises. -/
theorem c4_counterexample :
    (startRequest "20240110" 2).map (fun r => r.start_date) = some "20240106"
    ∧ "20240106" ≠ "20240110" := by decide

/-- C4 (amended): only get_start_date_for_n_days derives values of its
own: its query start date is the strftime of end_date minus
2 × days_ago calendar days, and its successful answer is the entry at
index days_ago - 1 of the descending-sorted trading-day column; the
get_daily_prices request, by contrast, passes its date arguments
through verbatim (or omits them). -/
theorem c4_start_date_computation :
    (∀ (e : String) (d : ℤ) (req : CalReq), startRequest e d = some req →
      req.end_date = e ∧ req.is_open = "1"
      ∧ ∃ dt, parseYmd e = some dt
          ∧ fmtDaysOpt (daysOfYmd dt - 2 * d) = some req.start_date)
    ∧ (∀ (e : String) (d : ℤ) (o : CalReq → Except String (List String))
        (dt : Nat × Nat × Nat) (sEst : String) (df : List String),
        parseYmd e = some dt →
        fmtDaysOpt (daysOfYmd dt - 2 * d) = some sEst →
        o ⟨sEst, e, "1"⟩ = Except.ok df →
        1 ≤ d → d ≤ (df.length : ℤ) →
        ∃ x, (sortDescBy (fun z => z) df).get? (d - 1).toNat = some x ∧
          (get_start_date_body e d o).1
            = Except.ok ("查询成功。对于结束日期 " ++ e ++ "，往前 " ++ toString d ++
                " 个交易日的开始日期是: " ++ x))
    ∧ (∀ (ts : String) (td sd ed : Option String),
        (dailyRequest ts td sd ed).ts_code = ts
        ∧ ((dailyRequest ts td sd ed).trade_date = td
            ∨ (dailyRequest ts td sd ed).trade_date = none)
        ∧ ((dailyRequest ts td sd ed).start_date = sd
            ∨ (dailyRequest ts td sd ed).start_date = none)
        ∧ ((dailyRequest ts td sd ed).end_date = ed
            ∨ (dailyRequest ts td sd ed).end_date = none)) := by
  refine ⟨?_, start_body_success, ?_⟩
  · intro e d req h
    unfold startRequest at h
    cases hp : parseYmd e with
    | none => rw [hp] at h; simp at h
    | some dt =>
      rw [hp] at h
      dsimp only at h
      cases hf : fmtDaysOpt (daysOfYmd dt - 2 * d) with
      | none => rw [hf] at h; simp at h
      | some sEst =>
        rw [hf] at h
        dsimp only at h
        injection h with h
        subst h
        exact ⟨rfl, rfl, dt, rfl, hf⟩
  · intro ts td sd ed
    unfold dailyRequest
    refine ⟨rfl, ?_, ?_, ?_⟩
    · by_cases h : pyTruthyO td = true <;> simp [h]
    · by_cases h : (pyTruthyO sd && pyTruthyO ed) = true <;> simp [h]
    · by_cases h : (pyTruthyO sd && pyTruthyO ed) = true <;> simp [h]

/-- C4 (witness): the characterisation instantiated on a concrete
calendar. -/
theorem c4_witness :
    ∃ x, (sortDescBy (fun z => z) ["20240108", "20240109", "20240110"]).get?
        ((2 : ℤ) - 1).toNat = some x ∧
      (get_start_date_body "20240110" 2 calOracle3).1
        = Except.ok ("查询成功。对于结束日期 " ++ "20240110" ++ "，往前 " ++ toString (2 : ℤ) ++
            " 个交易日的开始日期是: " ++ x) :=
  c4_start_date_computation.2.1 "20240110" 2 calOracle3 (2024, 1, 10) "20240106"
    ["20240108", "20240109", "20240110"] (by decide) (by decide) rfl
    (by decide) (by decide)

/-! ## Claim C8 -/

/-- C8: normalize_stock_code returns the stripped-lowercased input
exactly when that string is sh or sz followed by six decimal digits
and None otherwise, and get_pe_percentile returns the format-error
message with zero database queries exactly on the inputs
normalize_stock_code rejects (one query otherwise). -/
theorem c8_normalize_characterisation :
    (∀ s : String,
      (normalize_stock_code s = none
        ∨ normalize_stock_code s = some (toLowerStr (pyStrip s)))
      ∧ (normalize_stock_code s = some (toLowerStr (pyStrip s))
          ↔ SpecShSz (toLowerStr (pyStrip s))))
    ∧ (∀ (sc : String) (resp : Except String (List PERow)),
      ((normalize_stock_code sc).isSome = false
        ∧ (get_pe_percentile sc resp).1 = peFmtErrMsg sc
        ∧ (get_pe_percentile sc resp).2 = 0)
      ∨ ((normalize_stock_code sc).isSome = true
        ∧ (get_pe_percentile sc resp).2 = 1)) :=
  ⟨fun s => ⟨normalize_none_or s, normalize_some_iff s⟩, pe_fmtErr_cases⟩

/-! ## Claim C9 -/

/-- C9: the wrapped get_pe_percentile is total — the
supabase_tool_handler decorator converts any exception e escaping the
body into the string 查询失败: followed by the message — and every
non-exceptional run returns exactly one of the format-error,
not-found, no-data or formatted-percentile messages. -/
theorem c9_pe_error_handling :
    ∀ (sc : String) (resp : Except String (List PERow)),
      (∃ e, resp = Except.error e ∧ (get_pe_percentile sc resp).1 = "查询失败: " ++ e)
      ∨ (get_pe_percentile sc resp).1 = peFmtErrMsg sc
      ∨ (get_pe_percentile sc resp).1 = "未找到股票：" ++ sc
      ∨ (get_pe_percentile sc resp).1 = "股票 " ++ sc ++ " 暂无PE分位数据"
      ∨ ∃ q, (get_pe_percentile sc resp).1
          = "股票 " ++ sc ++ " 的近三年PE分位：" ++ pyFormat q 4 false :=
  pe_outcomes

/-! ## Claim C10 -/

/-- C10: with a configured token, both copies of get_daily_prices
return the date-validation error message exactly when the arguments
are neither a non-empty trade_date with both range bounds absent nor
a non-empty start_date and end_date with trade_date absent, and in
that case they issue no remote query at all. -/
theorem c10_daily_validation (s : Env) (ts : String) (td sd ed : Option String)
    (o : DailyReq → Except String (List DailyRow))
    (n : String → Except Unit (List StockRow))
    (htok : pyTruthyO (get_tushare_token s).1 = true) :
    (((get_daily_prices_intraday s ts td sd ed o n).out = dateErrMsg)
        ↔ specValidDailyArgs td sd ed = false)
    ∧ (((get_daily_prices_server s ts td sd ed o n).out = dateErrMsg)
        ↔ specValidDailyArgs td sd ed = false)
    ∧ (specValidDailyArgs td sd ed = false →
        (get_daily_prices_intraday s ts td sd ed o n).calls = 0
        ∧ (get_daily_prices_server s ts td sd ed o n).calls = 0) := by
  have hv := validDaily_eq_spec td sd ed
  by_cases hval : validDaily td sd ed = true
  · have hspec : specValidDailyArgs td sd ed = true := hv ▸ hval
    refine ⟨?_, ?_, ?_⟩
    · constructor
      · intro h
        exact absurd h (daily_valid_out_intraday s ts td sd ed o n htok hval)
      · intro h
        rw [hspec] at h
        exact absurd h (by simp)
    · constructor
      · intro h
        exact absurd h (daily_valid_out_server s ts td sd ed o n htok hval)
      · intro h
        rw [hspec] at h
        exact absurd h (by simp)
    · intro h
      rw [hspec] at h
      exact absurd h (by simp)
  · have hval' : validDaily td sd ed = false := by
      revert hval
      cases validDaily td sd ed <;> simp
    have hspec : specValidDailyArgs td sd ed = false := hv ▸ hval'
    refine ⟨?_, ?_, fun _ => ⟨?_, ?_⟩⟩
    · simp [daily_invalid_out_intraday s ts td sd ed o n htok hval', hspec]
    · simp [daily_invalid_out_server s ts td sd ed o n htok hval', hspec]
    · rw [get_daily_prices_intraday_calls]
      simp [htok, hval']
    · rw [get_daily_prices_server_calls]
      simp [htok, hval']

/-- C10 (witness): a concrete invalid combination (trade_date together
with start_date) is rejected with the date-error message and zero
remote calls. -/
theorem c10_witness :
    (get_daily_prices_intraday envTok "600126.SH" (some "20250227") (some "20250101")
        none dailyOracle1 nameOracle1).out = dateErrMsg
    ∧ (get_daily_prices_intraday envTok "600126.SH" (some "20250227") (some "20250101")
        none dailyOracle1 nameOracle1).calls = 0
    ∧ (get_daily_prices_server envTok "600126.SH" (some "20250227") (some "20250101")
        none dailyOracle1 nameOracle1).calls = 0 := by
  have h := c10_daily_validation envTok "600126.SH" (some "20250227") (some "20250101")
    none dailyOracle1 nameOracle1 (by decide)
  refine ⟨h.1.mpr (by decide), (h.2.2 (by decide)).1, (h.2.2 (by decide)).2⟩
